import Mathlib

/-!
Shallow embedding of the recommendation engine of `stanalyzer`
(`src/modules/recommendations.py`, class `RecommendationModule`).

Modelling conventions:
- Python dict records become structures with `Option` fields; `d.get(k, v)`
  becomes `field.getD v`; `d.get(k)` becomes the bare `Option` value.
- Python truthiness of a numeric value is "present and non-zero".
- Floats are modelled as `ℚ`.
- `band_size` may be absent/falsy, truthy but not `int()`-parseable
  (the code catches `ValueError`), or truthy and parsing to an integer.
- Python dicts keyed by recommendation id become insertion-ordered
  association lists with overwrite-in-place semantics (`dictInsert`).
- `sorted(..., reverse=True)` / `list.sort(..., reverse=True)` are stable
  descending sorts, modelled by the stable insertion sort `isortDescBy`.
- `random.shuffle` call sites take an injectable function parameter.
- `generate_all_stats()` may raise: it is passed in as `Except Unit Stats`;
  the surrounding `try/except` is the `Except.error` branch.
-/

namespace StAnalyzer

/-- Python truthiness of an optional numeric value: `None`, absent and `0`
are falsy. -/
def qTruthy (o : Option ℚ) : Bool := o.getD 0 != 0

/-- The `band_size` attribute as seen by `_calculate_similarity`:
either falsy (`None`, `''`, `0`), truthy but raising `ValueError` under
`int()`, or truthy and parsing to an integer (so the string `"0"` is
`val 0`). -/
inductive BandSize where
  | absent
  | unparseable
  | val (n : Int)
deriving DecidableEq

/-- A performer record (`performers_data` entry or statistics seed).
Fields mirror the dict keys read by `recommendations.py`. -/
structure Performer where
  pid : Option String
  name : Option String
  measurements : Option String
  bmi : Option ℚ
  cup_to_bmi : Option ℚ
  o_counter : Option ℚ
  scene_count : Option ℚ
  band_size : BandSize
  cup_letter : Option Char
  volume_cc : Option ℚ
  height_cm : Option ℚ
  weight : Option ℚ
  cup_size : Option String
  favorite : Bool
deriving DecidableEq

/-- A performer record with every attribute absent, for building inputs. -/
def blankPerformer : Performer :=
  { pid := none, name := none, measurements := none, bmi := none,
    cup_to_bmi := none, o_counter := none, scene_count := none,
    band_size := BandSize.absent, cup_letter := none, volume_cc := none,
    height_cm := none, weight := none, cup_size := none, favorite := false }

/-- `1 - min(abs(a-b)/max(a,b), 1)`, the ratio similarity used by several
terms of `_calculate_similarity` (division is only reached where the code
guards `max` away from zero). -/
def ratioSim (a b : ℚ) : ℚ := 1 - min (|a - b| / max a b) 1

/-- Lines 64-71: cup-to-BMI term. Outer guard on the truthiness of the
`bmi` attribute of both records, inner guard on truthiness of both
`cup_to_bmi` values, weight 0.3. -/
def cupToBmiTerm (b t : Performer) : ℚ :=
  if qTruthy b.bmi && qTruthy t.bmi then
    let a := b.cup_to_bmi.getD 0
    let c := t.cup_to_bmi.getD 0
    if a ≠ 0 ∧ c ≠ 0 then ratioSim a c * (3/10) else 0
  else 0

/-- Lines 73-78: o-counter term, both strictly positive, weight 0.2. -/
def oCounterTerm (b t : Performer) : ℚ :=
  let a := b.o_counter.getD 0
  let c := t.o_counter.getD 0
  if a > 0 ∧ c > 0 then ratioSim a c * (2/10) else 0

/-- Lines 80-85: scene-count term, both strictly positive, weight 0.1. -/
def sceneCountTerm (b t : Performer) : ℚ :=
  let a := b.scene_count.getD 0
  let c := t.scene_count.getD 0
  if a > 0 ∧ c > 0 then ratioSim a c * (1/10) else 0

/-- Lines 87-95: band-size term; both truthy and `int()`-parseable,
`ZeroDivisionError` (i.e. `max = 0`) caught and skipped, weight 0.2. -/
def bandSizeTerm (b t : Performer) : ℚ :=
  match b.band_size, t.band_size with
  | BandSize.val a, BandSize.val c =>
      if max a c = 0 then 0 else ratioSim (a : ℚ) (c : ℚ) * (2/10)
  | _, _ => 0

/-- The alphabet `'ABCDEFGHIJK'` of line 101. -/
def cupLetters : List Char := ['A','B','C','D','E','F','G','H','I','J','K']

/-- Lines 97-108: cup-letter term; both truthy and found in the alphabet
(`ValueError` from `.index` caught and skipped), divisor is the alphabet
length 11, weight 0.2. -/
def cupLetterTerm (b t : Performer) : ℚ :=
  match b.cup_letter, t.cup_letter with
  | some bc, some tc =>
    match cupLetters.findIdx? (fun x => x == bc),
          cupLetters.findIdx? (fun x => x == tc) with
    | some i, some j => (1 - min (|(i : ℚ) - (j : ℚ)| / 11) 1) * (2/10)
    | _, _ => 0
  | _, _ => 0

/-- Lines 110-115: breast-volume term, both strictly positive, weight 0.3. -/
def volumeTerm (b t : Performer) : ℚ :=
  let a := b.volume_cc.getD 0
  let c := t.volume_cc.getD 0
  if a > 0 ∧ c > 0 then ratioSim a c * (3/10) else 0

/-- Lines 117-122: height term, both strictly positive, fixed 30 cm scale,
weight 0.1. -/
def heightTerm (b t : Performer) : ℚ :=
  let a := b.height_cm.getD 0
  let c := t.height_cm.getD 0
  if a > 0 ∧ c > 0 then (1 - min (|a - c| / 30) 1) * (1/10) else 0

/-- Lines 124-129: weight term, both strictly positive, fixed 30 kg scale,
weight 0.1. -/
def weightTerm (b t : Performer) : ℚ :=
  let a := b.weight.getD 0
  let c := t.weight.getD 0
  if a > 0 ∧ c > 0 then (1 - min (|a - c| / 30) 1) * (1/10) else 0

/-- `_calculate_similarity(base, target)` (lines 47-131): the running sum
of the eight per-attribute terms in source order. -/
def calculate_similarity (b t : Performer) : ℚ :=
  cupToBmiTerm b t + oCounterTerm b t + sceneCountTerm b t + bandSizeTerm b t
    + cupLetterTerm b t + volumeTerm b t + heightTerm b t + weightTerm b t

/-- A tag entry of a scene (a dict read via `tag.get('name', '')`). -/
structure STag where
  name : Option String
deriving DecidableEq

/-- A performer entry of a scene (read via `p.get('name', '')` and
`p.get('favorite', False)`). -/
structure ScenePerformer where
  name : Option String
  favorite : Bool
deriving DecidableEq

/-- A scene record (`scenes_data` entry). -/
structure Scene where
  sid : Option String
  title : Option String
  o_counter : Option Int
  performers : List ScenePerformer
  tags : List STag
deriving DecidableEq

/-- `Counter[key] += v`: an insertion-ordered counter as an association
list; a new key is appended, an existing key is incremented in place. -/
def counterAdd (c : List (String × Int)) (k : String) (v : Int) :
    List (String × Int) :=
  match c with
  | [] => [(k, v)]
  | (k', v') :: rest =>
    if k' = k then (k', v' + v) :: rest else (k', v') :: counterAdd rest k v

/-- Stable insertion into a descending-sorted list: `x` goes in front of
the first element whose key is not larger, so earlier equal-key elements
stay in front (Python's stable `sorted(..., reverse=True)`). -/
def insertDescBy (f : α → ℚ) (x : α) : List α → List α
  | [] => [x]
  | y :: ys => if f y ≤ f x then x :: y :: ys else y :: insertDescBy f x ys

/-- Stable descending sort by a rational key. -/
def isortDescBy (f : α → ℚ) : List α → List α
  | [] => []
  | x :: xs => insertDescBy f x (isortDescBy f xs)

/-- `Counter.most_common(n)`: entries sorted by count descending (stable,
so equal counts keep first-insertion order), truncated to `n`. -/
def mostCommon (c : List (String × Int)) (n : Nat) : List (String × Int) :=
  (isortDescBy (fun kv => (kv.2 : ℚ)) c).take n

/-- The weighted tag counter built by `_get_popular_tags` (lines 144-155):
scenes with `o_counter ≥ min_o_counter` add their `o_counter` value for
each non-empty tag name. -/
def tagWeights (scenes : List Scene) (min_o_counter : Int) :
    List (String × Int) :=
  scenes.foldl
    (fun c s =>
      if s.o_counter.getD 0 ≥ min_o_counter then
        s.tags.foldl
          (fun c2 t =>
            let nm := t.name.getD ""
            if nm ≠ "" then counterAdd c2 nm (s.o_counter.getD 0) else c2)
          c
      else c)
    []

/-- `_get_popular_tags(min_o_counter, top_n)` (lines 133-158): the top
`top_n` tag names of the weighted counter. -/
def getPopularTags (scenes : List Scene) (min_o_counter : Int)
    (top_n : Nat) : List String :=
  (mostCommon (tagWeights scenes min_o_counter) top_n).map Prod.fst

/-- `_calculate_tag_similarity(tags1, tags2)` (lines 160-184): Jaccard
similarity of the two tag lists as sets; 0 when either list is empty. -/
def calculate_tag_similarity (tags1 tags2 : List String) : ℚ :=
  if tags1 = [] ∨ tags2 = [] then 0
  else
    let s1 := tags1.eraseDups
    let s2 := tags2.eraseDups
    let inter := s1.countP (fun t => s2.contains t)
    let union := (s1 ++ s2).eraseDups.length
    if union = 0 then 0 else (inter : ℚ) / (union : ℚ)

/-- `len(set(tag_names).intersection(popular_tags))` (line 491): the number
of distinct tag names that also occur in `popular_tags`. -/
def intersectCount (tags popular : List String) : Nat :=
  tags.eraseDups.countP (fun t => popular.contains t)

/-- The `reason` f-strings of the three strategies, kept symbolic so that
no float formatting has to be modelled (lines 271, 326, 376). -/
inductive Reason where
  | similarTo (name : String) (o : ℚ)
  | similarVolume (name : String) (o : ℚ)
  | cupAvg (letter : Char) (avg : ℚ)
deriving DecidableEq

/-- The `cup_size` labels of candidate entries, kept symbolic: strategy 1
formats `f"{band_size}{cup_letter}"` (line 267), strategy 2 reads the
`cup_size` attribute (line 322), strategy 3 formats
`f"{band_size}{letter}"` with the seed letter (line 373). -/
inductive CupLabel where
  | parts (band : BandSize) (letter : Option Char)
  | fromField (s : Option String)
  | partsLetter (band : BandSize) (letter : Char)
deriving DecidableEq

/-- A candidate entry of a recommendation record; keys that a strategy
does not emit are `none` (`cup_to_bmi` is emitted by strategy 1 only and
itself optional, `volume_cc` by strategy 2 only). -/
structure SimilarEntry where
  sid : Option String
  name : String
  cup_size : CupLabel
  cup_to_bmi : Option (Option ℚ)
  volume_cc : Option ℚ
  o_counter : ℚ
  similarity : ℚ
  reason : Reason
deriving DecidableEq

/-- The seed snapshot stored under the `performer` key of a record; keys a
strategy does not emit are `none`. -/
structure SeedSnapshot where
  name : String
  measurements : String
  o_counter : ℚ
  cup_to_bmi : Option (Option ℚ)
  volume_cc : Option ℚ
  cup_size : Option CupLabel
  cup_letter : Option Char
deriving DecidableEq

/-- The deterministic record ids `f"o_counter_{id}"`, `f"volume_{id}"`,
`f"cup_{letter}"`; the three prefixes never collide, so the id is a tagged
value. -/
inductive RecId where
  | oCounter (s : String)
  | volume (s : String)
  | cup (c : Char)
deriving DecidableEq

/-- Whether a record id comes from the volume strategy. -/
def RecId.isVolume : RecId → Bool
  | RecId.volume _ => true
  | _ => false

/-- A performer recommendation record. -/
structure Rec where
  rid : RecId
  performer : SeedSnapshot
  similar_performers : List SimilarEntry
  recommendation_type : String
deriving DecidableEq

/-- A scene recommendation entry (lines 485-492). -/
structure SceneRec where
  sid : Option String
  title : String
  performers : List String
  tags : List String
  tag_similarity : ℚ
  similarity : Nat
deriving DecidableEq

/-- The mutable module state: the performer cache (insertion-ordered dict
keyed by record id), the scene cache (dict from category name to list),
and the single rotation counter `_recommendation_counter` shared by both
recommendation methods. -/
structure RecState where
  performer_cache : List (RecId × Rec)
  scene_cache : List (String × List SceneRec)
  counter : Nat
deriving DecidableEq

/-- The per-cup-letter correlation rows consumed by strategy 3
(`cup_letter_o_stats`). -/
structure CupStat where
  cup_letter : Option Char
  avg_o_count : Option ℚ
deriving DecidableEq

/-- The statistics payload of `generate_all_stats()`, restricted to the
fields `recommend_performers` / `recommend_scenes` read:
`top_o_counter_performers`, `volume_stats.top_volume_performers`,
`cup_size_stats.cup_size_dataframe` and
`cup_size_o_counter_correlation.cup_letter_o_stats`. -/
structure Stats where
  top_o_counter_performers : List Performer
  top_volume_performers : List Performer
  cup_size_dataframe : List (List (String × ℚ))
  cup_letter_o_stats : List CupStat
deriving DecidableEq

/-- `pd.DataFrame(rows).empty`: true when there are no rows or every row
dict is empty (both axes of length 0 count as empty). -/
def dfEmpty (rows : List (List (String × ℚ))) : Bool :=
  rows.all (fun r => r.isEmpty)

/-- Python dict assignment `d[k] = v`: overwrite in place when the key
exists, append otherwise. -/
def dictInsert (d : List (RecId × Rec)) (k : RecId) (v : Rec) :
    List (RecId × Rec) :=
  match d with
  | [] => [(k, v)]
  | (k', v') :: rest =>
    if k' = k then (k, v) :: rest else (k', v') :: dictInsert rest k v

/-- The cache writes of one `recommend_performers` run: every produced
record is stored under its id the moment it is built (lines 292, 348,
397), which is the in-order fold of `dictInsert` over the produced
records. -/
def applyRecs (cache : List (RecId × Rec)) (recs : List Rec) :
    List (RecId × Rec) :=
  recs.foldl (fun c r => dictInsert c r.rid r) cache

/-- Strategy 1 candidate scan for one seed (lines 249-275): skip the seed
itself by id, keep only `o_counter == 0` candidates with
`_calculate_similarity > 0.5`, then stable-sort descending by
similarity. -/
def strategy1Sims (pdata : List Performer) (base : Performer) :
    List SimilarEntry :=
  isortDescBy SimilarEntry.similarity
    (pdata.filterMap (fun target =>
      if target.pid = base.pid then none
      else if target.o_counter.getD 0 ≠ 0 then none
      else
        let s := calculate_similarity base target
        if s > 1/2 then
          some
            { sid := target.pid, name := target.name.getD "Unknown",
              cup_size := CupLabel.parts target.band_size target.cup_letter,
              cup_to_bmi := some target.cup_to_bmi, volume_cc := none,
              o_counter := target.o_counter.getD 0, similarity := s,
              reason := Reason.similarTo (base.name.getD "Unknown")
                (base.o_counter.getD 0) }
        else none))

/-- Strategy 1 (lines 246-293): one record per top-o-counter seed with a
non-empty candidate list, candidates truncated to 5. -/
def strategy1 (pdata tops : List Performer) : List Rec :=
  tops.filterMap (fun base =>
    let sims := strategy1Sims pdata base
    if sims = [] then none
    else
      some
        { rid := RecId.oCounter (base.pid.getD ""),
          performer :=
            { name := base.name.getD "Unknown",
              measurements := base.measurements.getD "N/A",
              o_counter := base.o_counter.getD 0,
              cup_to_bmi := some base.cup_to_bmi, volume_cc := none,
              cup_size := none, cup_letter := none },
          similar_performers := sims.take 5,
          recommendation_type := "o_counter_similarity" })

/-- The dedicated volume-only similarity of strategy 2 (lines 315-316). -/
def volumeSim (target_volume performer_volume : ℚ) : ℚ :=
  max 0 (1 - |performer_volume - target_volume| / max target_volume performer_volume)

/-- Strategy 2 candidate scan for one seed (lines 303-330): skip
candidates with `o_counter > 0`, require positive volume and volume-only
similarity `> 0.7`, stable-sort descending. -/
def strategy2Cands (pdata : List Performer) (vp : Performer)
    (target_volume : ℚ) : List SimilarEntry :=
  isortDescBy SimilarEntry.similarity
    (pdata.filterMap (fun p =>
      if p.o_counter.getD 0 > 0 then none
      else
        let pv := p.volume_cc.getD 0
        if pv > 0 then
          let vs := volumeSim target_volume pv
          if vs > 7/10 then
            some
              { sid := p.pid, name := p.name.getD "Unknown",
                cup_size := CupLabel.fromField p.cup_size,
                cup_to_bmi := none, volume_cc := some pv, o_counter := 0,
                similarity := vs,
                reason := Reason.similarVolume (vp.name.getD "Unknown")
                  (vp.o_counter.getD 0) }
          else none
        else none))

/-- Strategy 2 (lines 295-349): one record per volume seed with
`o_counter > 0`, positive target volume and a non-empty candidate list;
candidates truncated to 5. -/
def strategy2 (pdata tvs : List Performer) : List Rec :=
  tvs.filterMap (fun vp =>
    if vp.o_counter.getD 0 > 0 then
      let tv := vp.volume_cc.getD 0
      if tv > 0 then
        let cands := strategy2Cands pdata vp tv
        if cands = [] then none
        else
          some
            { rid := RecId.volume (vp.pid.getD ""),
              performer :=
                { name := vp.name.getD "Unknown",
                  measurements := vp.measurements.getD "N/A",
                  o_counter := vp.o_counter.getD 0, cup_to_bmi := none,
                  volume_cc := some (vp.volume_cc.getD 0),
                  cup_size := some (CupLabel.fromField vp.cup_size),
                  cup_letter := none },
              similar_performers := cands.take 5,
              recommendation_type := "volume_similarity" }
      else none
    else none)

/-- Strategy 3 (lines 351-398): cup-letter stats stable-sorted descending
by `avg_o_count`, top 3 taken; a truthy letter with positive average
collects every performer with that cup letter and `o_counter == 0` at the
fixed similarity 0.8, shuffles the candidates, and produces a record when
the list is non-empty. -/
def strategy3 (shuffleCands : List SimilarEntry → List SimilarEntry)
    (pdata : List Performer) (cupStats : List CupStat) : List Rec :=
  ((isortDescBy (fun cs => cs.avg_o_count.getD 0) cupStats).take 3).filterMap
    (fun cs =>
      match cs.cup_letter with
      | none => none
      | some c =>
        let avg := cs.avg_o_count.getD 0
        if avg > 0 then
          let cands :=
            (pdata.filter (fun p =>
              decide (p.cup_letter = some c ∧ p.o_counter.getD 0 = 0))).map
              (fun p =>
                { sid := p.pid, name := p.name.getD "Unknown",
                  cup_size := CupLabel.partsLetter p.band_size c,
                  cup_to_bmi := none, volume_cc := none, o_counter := 0,
                  similarity := 4/5,
                  reason := Reason.cupAvg c avg })
          let sh := shuffleCands cands
          if sh = [] then none
          else
            some
              { rid := RecId.cup c,
                performer :=
                  { name := "Cup-Größe " ++ String.singleton c,
                    measurements := "Cup " ++ String.singleton c,
                    o_counter := avg, cup_to_bmi := none, volume_cc := none,
                    cup_size := none, cup_letter := some c },
                similar_performers := sh.take 5,
                recommendation_type := "cup_size_popularity" }
        else none)

/-- `recommend_performers()` (lines 209-407). The counter is incremented
first; a non-empty cache short-circuits into rotation by
`counter % len(pool)` truncated to 10; empty data returns `[]`; a raising
statistics collaborator returns `[]` leaving the caches untouched;
otherwise the three strategies run, the produced records are written to
the cache, and the shuffled pool truncated to 10 is returned. -/
def recommend_performers (shuffleRecs : List Rec → List Rec)
    (shuffleCands : List SimilarEntry → List SimilarEntry)
    (pdata : List Performer) (stats : Except Unit Stats) (st : RecState) :
    List Rec × RecState :=
  let counter := st.counter + 1
  if st.performer_cache ≠ [] then
    let cached := st.performer_cache.map Prod.snd
    let ri := counter % cached.length
    ((cached.drop ri ++ cached.take ri).take 10, { st with counter := counter })
  else if pdata = [] then ([], { st with counter := counter })
  else
    match stats with
    | Except.error _ => ([], { st with counter := counter })
    | Except.ok stats =>
      let s1 := strategy1 pdata stats.top_o_counter_performers
      let s2 :=
        if stats.top_volume_performers ≠ [] ∧
            dfEmpty stats.cup_size_dataframe = false then
          strategy2 pdata stats.top_volume_performers
        else []
      let s3 := strategy3 shuffleCands pdata stats.cup_letter_o_stats
      let recs := s1 ++ s2 ++ s3
      let cache := applyRecs st.performer_cache recs
      ((shuffleRecs recs).take 10,
        { st with performer_cache := cache, counter := counter })

/-- Tag names of a scene, `t.get('name', '')` (lines 455, 473):
empty-string defaults are kept, unlike in `_get_popular_tags`. -/
def sceneTagNames (s : Scene) : List String :=
  s.tags.map (fun t => t.name.getD "")

/-- Performer names of a scene, `p.get('name', '')` (line 472). -/
def scenePerfNames (s : Scene) : List String :=
  s.performers.map (fun p => p.name.getD "")

/-- Line 465: only scenes with `o_counter == 0` are recommended. -/
def sceneEligible (s : Scene) : Bool := s.o_counter.getD 0 == 0

/-- Line 476: the scene lists a favorite performer. -/
def sceneHasFav (s : Scene) : Bool := s.performers.any (fun p => p.favorite)

/-- Line 479: some performer name of the scene is a top-performer name. -/
def sceneHasTop (topNames : List String) (s : Scene) : Bool :=
  (scenePerfNames s).any (fun n => topNames.contains n)

/-- The top-performer names pulled from the statistics payload
(lines 448-449). -/
def topPerformerNames (stats : Stats) : List String :=
  stats.top_o_counter_performers.map (fun p => p.name.getD "")

/-- `most_common_tags` (lines 451-460): tag names (including empty-name
defaults) of scenes with `o_counter ≥ 3`, counted by frequency, top 20. -/
def mostCommonTags (scenes : List Scene) : List String :=
  let highTags :=
    ((scenes.filter (fun s => s.o_counter.getD 0 ≥ 3)).map sceneTagNames).flatten
  let tagCnt := highTags.foldl (fun c t => counterAdd c t 1) []
  (mostCommon tagCnt 20).map Prod.fst

/-- The recommendation entry built for an eligible scene (lines 485-492):
`tag_similarity` is the Jaccard similarity against `most_common_tags`,
`similarity` the distinct-tag overlap with the weighted popular tags. -/
def mkSceneRec (popular mct : List String) (s : Scene) : SceneRec :=
  { sid := s.sid, title := s.title.getD "Unknown",
    performers := scenePerfNames s, tags := sceneTagNames s,
    tag_similarity := calculate_tag_similarity (sceneTagNames s) mct,
    similarity := intersectCount (sceneTagNames s) popular }

/-- The `favorite_performer_scenes` bucket before sorting/truncation: the
first branch of the `if/elif` chain (lines 495-496). -/
def favBucket (popular mct : List String) (scenes : List Scene) :
    List SceneRec :=
  (scenes.filter (fun s => sceneEligible s && sceneHasFav s)).map
    (mkSceneRec popular mct)

/-- The `recommended_performer_scenes` bucket: second branch
(lines 497-498), so not a favorite-performer scene. -/
def recBucket (popular mct tn : List String) (scenes : List Scene) :
    List SceneRec :=
  (scenes.filter (fun s =>
    sceneEligible s && !sceneHasFav s && sceneHasTop tn s)).map
    (mkSceneRec popular mct)

/-- The `similar_tag_scenes` bucket: third branch (lines 499-500),
`tag_similarity > 0.3` and neither of the earlier branches. -/
def simBucket (popular mct tn : List String) (scenes : List Scene) :
    List SceneRec :=
  (scenes.filter (fun s =>
    sceneEligible s && !sceneHasFav s && !sceneHasTop tn s &&
      decide (calculate_tag_similarity (sceneTagNames s) mct > 3/10))).map
    (mkSceneRec popular mct)

/-- The `non_favorite_performer_scenes` fallback bucket: `else` branch
(lines 501-502). -/
def nonFavBucket (popular mct tn : List String) (scenes : List Scene) :
    List SceneRec :=
  (scenes.filter (fun s =>
    sceneEligible s && !sceneHasFav s && !sceneHasTop tn s &&
      !(decide (calculate_tag_similarity (sceneTagNames s) mct > 3/10)))).map
    (mkSceneRec popular mct)

/-- `recommend_scenes()` (lines 409-528). The shared counter is
incremented first; a non-empty scene cache short-circuits into per-category
rotation of a copy (the cache itself is not modified); empty scene data
returns the empty mapping; a raising statistics collaborator returns the
empty mapping; otherwise eligible scenes are bucketed by the priority
chain, each category is stable-sorted (by `tag_similarity` for
`similar_tag_scenes`, by `similarity` otherwise) and truncated (15 / 10),
and the resulting four-key mapping is stored as the scene cache and
returned. The mapping keeps the dict-literal key order of lines
434-439. -/
def recommend_scenes (scenes_data : List Scene) (stats : Except Unit Stats)
    (st : RecState) : List (String × List SceneRec) × RecState :=
  let counter := st.counter + 1
  if st.scene_cache ≠ [] then
    let rotated := st.scene_cache.map (fun nl =>
      if nl.2 ≠ [] then
        let ri := counter % nl.2.length
        (nl.1, nl.2.drop ri ++ nl.2.take ri)
      else nl)
    (rotated, { st with counter := counter })
  else if scenes_data = [] then ([], { st with counter := counter })
  else
    match stats with
    | Except.error _ => ([], { st with counter := counter })
    | Except.ok stats =>
      let popular := getPopularTags scenes_data 3 20
      let tn := topPerformerNames stats
      let mct := mostCommonTags scenes_data
      let simKey : SceneRec → ℚ := fun r => (r.similarity : ℚ)
      let out :=
        [("favorite_performer_scenes",
            (isortDescBy simKey (favBucket popular mct scenes_data)).take 10),
          ("non_favorite_performer_scenes",
            (isortDescBy simKey (nonFavBucket popular mct tn scenes_data)).take 10),
          ("recommended_performer_scenes",
            (isortDescBy simKey (recBucket popular mct tn scenes_data)).take 10),
          ("similar_tag_scenes",
            (isortDescBy SceneRec.tag_similarity
              (simBucket popular mct tn scenes_data)).take 15)]
      (out, { st with scene_cache := out, counter := counter })

/-! ### Concrete inputs used by the theorems below -/

/-- A performer whose only attribute is a non-zero `cup_to_bmi`. -/
def pC7 : Performer := { blankPerformer with cup_to_bmi := some (1/2) }

/-- Like `pC7` but with a truthy `bmi` attribute as well. -/
def pC7b : Performer :=
  { blankPerformer with cup_to_bmi := some (1/2), bmi := some 20 }

/-- The scene `{tags:["x","y"], o_counter:5}` of the spec scenario. -/
def sceneX : Scene :=
  { sid := none, title := none, o_counter := some 5, performers := [],
    tags := [{ name := some "x" }, { name := some "y" }] }

/-- The scene `{tags:["x"], o_counter:1}` of the spec scenario. -/
def sceneY : Scene :=
  { sid := none, title := none, o_counter := some 1, performers := [],
    tags := [{ name := some "x" }] }

/-- The two-scene snapshot of the `PopularTags` scenario. -/
def scenes9 : List Scene := [sceneX, sceneY]

/-! ### Shared helper lemmas -/

/-- The initial module state: empty caches, counter 0. -/
def st0 : RecState := { performer_cache := [], scene_cache := [], counter := 0 }

/-- A volume seed: engaged (`o_counter = 5`) with volume 400 cc. -/
def vpC4 : Performer :=
  { blankPerformer with
    pid := some "v1", name := some "V",
    o_counter := some 5, volume_cc := some 400 }

/-- An unseen candidate with volume 420 cc, within the 0.7 volume-only
similarity threshold of the seed `vpC4`. -/
def candC4 : Performer :=
  { blankPerformer with
    pid := some "c1", name := some "C",
    o_counter := some 0, volume_cc := some 420 }

/-- The candidate snapshot for the volume-strategy experiment. -/
def pdataC4 : List Performer := [candC4]

/-- A statistics payload whose only populated field is the volume seed
list; the cup-size dataframe is empty. -/
def statsC4 : Stats :=
  { top_o_counter_performers := [], top_volume_performers := [vpC4],
    cup_size_dataframe := [], cup_letter_o_stats := [] }

/-- `statsC4` with a non-empty cup-size dataframe; all consumed fields of
the volume strategy itself are unchanged. -/
def statsC4n : Stats := { statsC4 with cup_size_dataframe := [[("cup_letter", 1)]] }

/-- The performer-cache projection to volume-strategy records. -/
def volumePart (cache : List (RecId × Rec)) : List (RecId × Rec) :=
  cache.filter (fun kv => kv.1.isVolume)

/-- A bare cached record with the given id suffix, used to populate
performer caches for the rotation experiments. -/
def recFxS (s : String) : Rec :=
  { rid := RecId.oCounter s,
    performer :=
      { name := "P", measurements := "N/A", o_counter := 0,
        cup_to_bmi := none, volume_cc := none, cup_size := none,
        cup_letter := none },
    similar_performers := [], recommendation_type := "o_counter_similarity" }

/-- An 11-record performer cache (one more than the served window). -/
def cacheFx : List (RecId × Rec) :=
  (["0","1","2","3","4","5","6","7","8","9","A"]).map
    (fun s => (RecId.oCounter s, recFxS s))

/-- State with the 11-record performer cache and counter 0. -/
def stFx : RecState :=
  { performer_cache := cacheFx, scene_cache := [], counter := 0 }

/-- A bare cached scene recommendation. -/
def srFx : SceneRec :=
  { sid := some "sc", title := "T", performers := [], tags := [],
    tag_similarity := 0, similarity := 0 }

/-- State with a two-record performer cache, a one-entry scene cache and
counter 0, for the interleaving experiments. -/
def stC3 : RecState :=
  { performer_cache :=
      [(RecId.oCounter "a", recFxS "a"), (RecId.oCounter "b", recFxS "b")],
    scene_cache := [("favorite_performer_scenes", [srFx])], counter := 0 }

/-- The single tag `"t"`. -/
def tagT : STag := { name := some "t" }

/-- An engaged scene (`o_counter = 1`) tagged `"t"`: it feeds the
`minOCounter=1` vocabulary but not the `minOCounter=3` one. -/
def scA2 : Scene :=
  { sid := some "sA", title := none, o_counter := some 1, performers := [],
    tags := [tagT] }

/-- An unseen scene tagged `"t"`. -/
def scB2 : Scene :=
  { sid := some "sB", title := none, o_counter := some 0, performers := [],
    tags := [tagT] }

/-- Two-scene snapshot separating the two o-counter thresholds. -/
def scenes2 : List Scene := [scA2, scB2]

/-- A statistics payload with every consumed field empty. -/
def statsE : Stats :=
  { top_o_counter_performers := [], top_volume_performers := [],
    cup_size_dataframe := [], cup_letter_o_stats := [] }

/-- An unseen scene with the given id and no performers or tags. -/
def scN (s : String) : Scene :=
  { sid := some s, title := none, o_counter := some 0, performers := [],
    tags := [] }

/-- Eleven unseen scenes, one more than the fallback category's cap. -/
def scenes5 : List Scene :=
  (["s1","s2","s3","s4","s5","s6","s7","s8","s9","s10","s11"]).map scN

theorem one_sub_min_one_nonneg (x : ℚ) : 0 ≤ 1 - min x 1 := by
  have h := min_le_right x 1
  linarith

theorem ratioSim_nonneg (a b : ℚ) : 0 ≤ ratioSim a b :=
  one_sub_min_one_nonneg _

theorem cupToBmiTerm_nonneg (b t : Performer) : 0 ≤ cupToBmiTerm b t := by
  unfold cupToBmiTerm
  split
  · dsimp only
    split
    · exact mul_nonneg (ratioSim_nonneg _ _) (by norm_num)
    · norm_num
  · norm_num

theorem oCounterTerm_nonneg (b t : Performer) : 0 ≤ oCounterTerm b t := by
  unfold oCounterTerm
  dsimp only
  split
  · exact mul_nonneg (ratioSim_nonneg _ _) (by norm_num)
  · norm_num

theorem sceneCountTerm_nonneg (b t : Performer) : 0 ≤ sceneCountTerm b t := by
  unfold sceneCountTerm
  dsimp only
  split
  · exact mul_nonneg (ratioSim_nonneg _ _) (by norm_num)
  · norm_num

theorem bandSizeTerm_nonneg (b t : Performer) : 0 ≤ bandSizeTerm b t := by
  unfold bandSizeTerm
  split
  · split
    · norm_num
    · exact mul_nonneg (ratioSim_nonneg _ _) (by norm_num)
  · norm_num

theorem cupLetterTerm_nonneg (b t : Performer) : 0 ≤ cupLetterTerm b t := by
  unfold cupLetterTerm
  split
  · split
    · exact mul_nonneg (one_sub_min_one_nonneg _) (by norm_num)
    · norm_num
  · norm_num

theorem volumeTerm_nonneg (b t : Performer) : 0 ≤ volumeTerm b t := by
  unfold volumeTerm
  dsimp only
  split
  · exact mul_nonneg (ratioSim_nonneg _ _) (by norm_num)
  · norm_num

theorem heightTerm_nonneg (b t : Performer) : 0 ≤ heightTerm b t := by
  unfold heightTerm
  dsimp only
  split
  · exact mul_nonneg (one_sub_min_one_nonneg _) (by norm_num)
  · norm_num

theorem weightTerm_nonneg (b t : Performer) : 0 ≤ weightTerm b t := by
  unfold weightTerm
  dsimp only
  split
  · exact mul_nonneg (one_sub_min_one_nonneg _) (by norm_num)
  · norm_num

/-! ### Claim theorems -/

/-- C8: `_calculate_similarity` is total over arbitrary performer records
(attributes missing, zero, negative or unparseable): every guard that the
code protects with a check or a local `except` is modelled, and the
returned score is always non-negative. -/
theorem c8_score_total_nonneg (b t : Performer) :
    0 ≤ calculate_similarity b t := by
  unfold calculate_similarity
  have h1 := cupToBmiTerm_nonneg b t
  have h2 := oCounterTerm_nonneg b t
  have h3 := sceneCountTerm_nonneg b t
  have h4 := bandSizeTerm_nonneg b t
  have h5 := cupLetterTerm_nonneg b t
  have h6 := volumeTerm_nonneg b t
  have h7 := heightTerm_nonneg b t
  have h8 := weightTerm_nonneg b t
  linarith

/-- C7 counterexample: both `cup_to_bmi` values are present and non-zero
(equal to 1/2), so the claim predicts a cup-to-BMI contribution of
`0.3 * (1 - min(0 / max(|1/2|,|1/2|), 1)) = 0.3`; but with the `bmi`
attribute absent the code contributes nothing and the whole score is 0:
the `bmi` attribute co-determines whether the term contributes. -/
theorem c7_bmi_guard_cex :
    calculate_similarity pC7 pC7 = 0 ∧ pC7.cup_to_bmi = some (1/2) ∧
      (3 : ℚ)/10 *
        (1 - min (|pC7.cup_to_bmi.getD 0 - pC7.cup_to_bmi.getD 0| /
          max |pC7.cup_to_bmi.getD 0| |pC7.cup_to_bmi.getD 0|) 1) = 3/10 := by
  refine ⟨by with_unfolding_all decide, by with_unfolding_all decide, ?_⟩
  norm_num

/-- C7 amended: the cup-to-BMI term of `_calculate_similarity` contributes
exactly `0.3 * (1 - min(|a-b|/max(a,b), 1))` if and only if both
performers' `bmi` attributes are truthy AND both `cup_to_bmi` values are
non-zero; only the `bmi` and `cup_to_bmi` attributes of the two records
determine the term, and the full score is this term plus the seven other
attribute terms. -/
theorem c7_cup_to_bmi_term_amended :
    (∀ b t b2 t2 : Performer, b.bmi = b2.bmi → b.cup_to_bmi = b2.cup_to_bmi →
      t.bmi = t2.bmi → t.cup_to_bmi = t2.cup_to_bmi →
      cupToBmiTerm b t = cupToBmiTerm b2 t2) ∧
    (∀ b t : Performer,
      (qTruthy b.bmi = true ∧ qTruthy t.bmi = true ∧
        b.cup_to_bmi.getD 0 ≠ 0 ∧ t.cup_to_bmi.getD 0 ≠ 0) →
      cupToBmiTerm b t =
        (3 : ℚ)/10 *
          (1 - min (|b.cup_to_bmi.getD 0 - t.cup_to_bmi.getD 0| /
            max (b.cup_to_bmi.getD 0) (t.cup_to_bmi.getD 0)) 1)) ∧
    (∀ b t : Performer,
      ¬(qTruthy b.bmi = true ∧ qTruthy t.bmi = true ∧
        b.cup_to_bmi.getD 0 ≠ 0 ∧ t.cup_to_bmi.getD 0 ≠ 0) →
      cupToBmiTerm b t = 0) ∧
    (∀ b t : Performer, calculate_similarity b t =
      cupToBmiTerm b t +
        (oCounterTerm b t + sceneCountTerm b t + bandSizeTerm b t +
          cupLetterTerm b t + volumeTerm b t + heightTerm b t +
          weightTerm b t)) := by
  refine ⟨?_, ?_, ?_, ?_⟩
  · intro b t b2 t2 h1 h2 h3 h4
    unfold cupToBmiTerm
    rw [h1, h2, h3, h4]
  · intro b t ⟨h1, h2, h3, h4⟩
    unfold cupToBmiTerm
    rw [h1, h2]
    simp only [Bool.and_self, if_true]
    rw [if_pos ⟨h3, h4⟩]
    unfold ratioSim
    ring
  · intro b t h
    unfold cupToBmiTerm
    by_cases h1 : qTruthy b.bmi = true
    · by_cases h2 : qTruthy t.bmi = true
      · rw [h1, h2]
        simp only [Bool.and_self, if_true]
        rw [if_neg]
        intro ⟨h3, h4⟩
        exact h ⟨h1, h2, h3, h4⟩
      · simp only [Bool.not_eq_true] at h2
        rw [h2]
        simp
    · simp only [Bool.not_eq_true] at h1
      rw [h1]
      simp
  · intro b t
    unfold calculate_similarity
    ring

/-- C7 witness: the amended characterization evaluated concretely — with
`bmi` truthy the term is the full formula value, without it the term is
0. -/
theorem c7_cup_to_bmi_witness :
    cupToBmiTerm pC7b pC7b =
      (3 : ℚ)/10 *
        (1 - min (|pC7b.cup_to_bmi.getD 0 - pC7b.cup_to_bmi.getD 0| /
          max (pC7b.cup_to_bmi.getD 0) (pC7b.cup_to_bmi.getD 0)) 1) ∧
    cupToBmiTerm pC7 pC7 = 0 :=
  ⟨c7_cup_to_bmi_term_amended.2.1 pC7b pC7b
      ⟨by with_unfolding_all decide, by with_unfolding_all decide, by with_unfolding_all decide, by with_unfolding_all decide⟩,
    c7_cup_to_bmi_term_amended.2.2.1 pC7 pC7 (by with_unfolding_all decide)⟩

/-- C9: a scene below the o-counter threshold contributes nothing to
`_get_popular_tags`, and on the spec scenario
`[{tags:["x","y"], o_counter:5}, {tags:["x"], o_counter:1}]` with
`min_o_counter=3, top_n=5` the result is `["x","y"]` with both tags
weighted 5 (each occurrence adds the scene's `o_counter`, not 1). -/
theorem c9_popular_tags :
    (∀ (s : Scene) (scenes : List Scene) (m : Int) (tn : Nat),
      s.o_counter.getD 0 < m →
      getPopularTags (s :: scenes) m tn = getPopularTags scenes m tn) ∧
    getPopularTags scenes9 3 5 = ["x", "y"] ∧
    tagWeights scenes9 3 = [("x", 5), ("y", 5)] := by
  refine ⟨?_, by with_unfolding_all decide, by with_unfolding_all decide⟩
  intro s scenes m tn h
  unfold getPopularTags tagWeights
  rw [List.foldl_cons, if_neg (not_le.mpr h)]

/-- C9 witness: the below-threshold scene `{tags:["x"], o_counter:1}`
prepended to the qualifying scene leaves the popular-tag list
unchanged. -/
theorem c9_popular_tags_witness :
    sceneY.o_counter.getD 0 < 3 ∧
      getPopularTags (sceneY :: [sceneX]) 3 5 = getPopularTags [sceneX] 3 5 :=
  ⟨by with_unfolding_all decide, c9_popular_tags.1 sceneY [sceneX] 3 5 (by with_unfolding_all decide)⟩

theorem volumePart_dictInsert_neg (c : List (RecId × Rec)) (k : RecId)
    (v : Rec) (h : k.isVolume = false) :
    volumePart (dictInsert c k v) = volumePart c := by
  induction c with
  | nil => simp [dictInsert, volumePart, List.filter_cons, h]
  | cons hd tl ih =>
    obtain ⟨k', v'⟩ := hd
    by_cases hk : k' = k
    · subst hk
      simp [dictInsert, volumePart, List.filter_cons, h]
    · simp only [dictInsert, if_neg hk]
      simp only [volumePart, List.filter_cons] at ih ⊢
      split
      · rw [ih]
      · exact ih

theorem volumePart_dictInsert_pos (c : List (RecId × Rec)) (k : RecId)
    (v : Rec) (h : k.isVolume = true) :
    volumePart (dictInsert c k v) = dictInsert (volumePart c) k v := by
  induction c with
  | nil => simp [dictInsert, volumePart, List.filter_cons, h]
  | cons hd tl ih =>
    obtain ⟨k', v'⟩ := hd
    by_cases hk : k' = k
    · subst hk
      simp [dictInsert, volumePart, List.filter_cons, h]
    · simp only [dictInsert, if_neg hk]
      simp only [volumePart, List.filter_cons] at ih ⊢
      split
      · rw [ih]
        simp [dictInsert, hk]
      · exact ih

theorem applyRecs_append (c : List (RecId × Rec)) (l1 l2 : List Rec) :
    applyRecs c (l1 ++ l2) = applyRecs (applyRecs c l1) l2 := by
  simp [applyRecs, List.foldl_append]

theorem volumePart_applyRecs_skip (recs : List Rec) :
    ∀ cache : List (RecId × Rec), (∀ r ∈ recs, r.rid.isVolume = false) →
    volumePart (applyRecs cache recs) = volumePart cache := by
  induction recs with
  | nil => intro cache _; rfl
  | cons r rs ih =>
    intro cache h
    show volumePart (applyRecs (dictInsert cache r.rid r) rs) = volumePart cache
    rw [ih (dictInsert cache r.rid r) (fun x hx => h x (List.mem_cons_of_mem _ hx))]
    exact volumePart_dictInsert_neg cache r.rid r (h r (List.mem_cons_self _ _))

theorem volumePart_applyRecs_pos (recs : List Rec) :
    ∀ cache : List (RecId × Rec), (∀ r ∈ recs, r.rid.isVolume = true) →
    volumePart (applyRecs cache recs) = applyRecs (volumePart cache) recs := by
  induction recs with
  | nil => intro cache _; rfl
  | cons r rs ih =>
    intro cache h
    show volumePart (applyRecs (dictInsert cache r.rid r) rs) =
      applyRecs (dictInsert (volumePart cache) r.rid r) rs
    rw [ih (dictInsert cache r.rid r) (fun x hx => h x (List.mem_cons_of_mem _ hx)),
      volumePart_dictInsert_pos cache r.rid r (h r (List.mem_cons_self _ _))]

theorem strategy1_rid_shape (pdata tops : List Performer) :
    ∀ r ∈ strategy1 pdata tops, r.rid.isVolume = false := by
  intro r hr
  simp only [strategy1, List.mem_filterMap] at hr
  obtain ⟨base, _, hb⟩ := hr
  split at hb
  · exact absurd hb (by simp)
  · cases hb
    rfl

theorem strategy2_rid_shape (pdata tvs : List Performer) :
    ∀ r ∈ strategy2 pdata tvs, r.rid.isVolume = true := by
  intro r hr
  simp only [strategy2, List.mem_filterMap] at hr
  obtain ⟨vp, _, hb⟩ := hr
  split at hb
  · split at hb
    · split at hb
      · exact absurd hb (by simp)
      · cases hb
        rfl
    · exact absurd hb (by simp)
  · exact absurd hb (by simp)

theorem strategy3_rid_shape (shc : List SimilarEntry → List SimilarEntry)
    (pdata : List Performer) (cupStats : List CupStat) :
    ∀ r ∈ strategy3 shc pdata cupStats, r.rid.isVolume = false := by
  intro r hr
  simp only [strategy3, List.mem_filterMap] at hr
  obtain ⟨cs, _, hb⟩ := hr
  split at hb
  · exact absurd hb (by simp)
  · split at hb
    · split at hb
      · exact absurd hb (by simp)
      · cases hb
        rfl
    · exact absurd hb (by simp)

/-- C1: when the statistics collaborator raises during seed selection, the
call leaves both caches exactly as they were, and whenever that run
reaches the error branch (cache empty, so no cached pool is served), the
caller receives the empty list — no partially built record set is stored
or served by later calls. -/
theorem c1_stats_error_preserves_cache
    (sh1 : List Rec → List Rec) (sh2 : List SimilarEntry → List SimilarEntry)
    (pdata : List Performer) (st : RecState) :
    (recommend_performers sh1 sh2 pdata (Except.error ()) st).2.performer_cache
        = st.performer_cache ∧
    (recommend_performers sh1 sh2 pdata (Except.error ()) st).2.scene_cache
        = st.scene_cache ∧
    (st.performer_cache = [] →
      (recommend_performers sh1 sh2 pdata (Except.error ()) st).1 = []) := by
  by_cases h : st.performer_cache = []
  · by_cases hp : pdata = [] <;>
      simp [recommend_performers, h, hp]
  · simp [recommend_performers, h]

/-- C1 witness: the error run on an empty cache with a non-empty snapshot
returns no records and does not touch the caches. -/
theorem c1_stats_error_witness :
    st0.performer_cache = [] ∧
    (recommend_performers id id [blankPerformer] (Except.error ()) st0).1 = [] ∧
    (recommend_performers id id [blankPerformer] (Except.error ()) st0).2.performer_cache
      = st0.performer_cache :=
  ⟨rfl,
    (c1_stats_error_preserves_cache id id [blankPerformer] st0).2.2 rfl,
    (c1_stats_error_preserves_cache id id [blankPerformer] st0).1⟩

/-- C4 counterexample: the statistics payload `statsC4` contains a
qualifying volume seed (o_counter 5 > 0, volume 400, with an unseen
candidate at volume-only similarity 20/21 > 0.7), yet with an empty
`cup_size_stats.cup_size_dataframe` the call produces no records at all;
the identical payload with a non-empty dataframe produces the volume
record — so the volume strategy does depend on a statistics field other
than the three listed ones. -/
theorem c4_volume_depends_on_cupdf_cex :
    (recommend_performers id id pdataC4 (Except.ok statsC4) st0).1 = [] ∧
    ((recommend_performers id id pdataC4 (Except.ok statsC4n) st0).1.map Rec.rid)
      = [RecId.volume "v1"] := by
  constructor
  · with_unfolding_all decide
  · with_unfolding_all decide

/-- C4 amended: the volume strategy consumes
`volume_stats.top_volume_performers` AND the emptiness of
`cup_size_stats.cup_size_dataframe`; given equal values of those two, the
volume-strategy records written to the cache are identical no matter what
the other statistics fields (and the shuffle sources) contain. -/
theorem c4_volume_records_amended
    (sh1 sh1' : List Rec → List Rec)
    (sh2 sh2' : List SimilarEntry → List SimilarEntry)
    (pdata : List Performer) (st : RecState) (stats stats' : Stats)
    (hc : st.performer_cache = [])
    (hv : stats.top_volume_performers = stats'.top_volume_performers)
    (hd : dfEmpty stats.cup_size_dataframe = dfEmpty stats'.cup_size_dataframe) :
    volumePart
        (recommend_performers sh1 sh2 pdata (Except.ok stats) st).2.performer_cache
      = volumePart
        (recommend_performers sh1' sh2' pdata (Except.ok stats') st).2.performer_cache := by
  by_cases hp : pdata = []
  · simp [recommend_performers, hc, hp]
  · have hrun : ∀ (shA : List Rec → List Rec)
        (shB : List SimilarEntry → List SimilarEntry) (s : Stats),
        volumePart
          (recommend_performers shA shB pdata (Except.ok s) st).2.performer_cache
        = applyRecs []
            (if s.top_volume_performers ≠ [] ∧ dfEmpty s.cup_size_dataframe = false
              then strategy2 pdata s.top_volume_performers else []) := by
      intro shA shB s
      have hvol : ∀ r ∈ (if s.top_volume_performers ≠ [] ∧
          dfEmpty s.cup_size_dataframe = false
            then strategy2 pdata s.top_volume_performers else []),
          r.rid.isVolume = true := by
        split
        · exact strategy2_rid_shape _ _
        · intro r hr
          exact absurd hr (List.not_mem_nil r)
      simp only [recommend_performers, hc, hp, ne_eq, not_true_eq_false,
        if_false, if_neg (by simp : ¬(([] : List (RecId × Rec)) ≠ []))]
      rw [applyRecs_append, applyRecs_append,
        volumePart_applyRecs_skip _ _ (strategy3_rid_shape _ _ _),
        volumePart_applyRecs_pos _ _ hvol,
        volumePart_applyRecs_skip _ _ (strategy1_rid_shape _ _)]
      rfl
    rw [hrun sh1 sh2 stats, hrun sh1' sh2' stats', hv, hd]

/-- C4 witness: the amended record-equality applied at the concrete
payload (compared with itself). -/
theorem c4_volume_records_witness :
    volumePart
        (recommend_performers id id pdataC4 (Except.ok statsC4) st0).2.performer_cache
      = volumePart
        (recommend_performers id id pdataC4 (Except.ok statsC4) st0).2.performer_cache :=
  c4_volume_records_amended id id id id pdataC4 st0 statsC4 statsC4 rfl rfl rfl

theorem insertDescBy_perm (f : α → ℚ) (x : α) (l : List α) :
    List.Perm (insertDescBy f x l) (x :: l) := by
  induction l with
  | nil => exact List.Perm.refl _
  | cons y ys ih =>
    unfold insertDescBy
    split
    · exact List.Perm.refl _
    · exact (ih.cons y).trans (List.Perm.swap x y ys)

theorem isortDescBy_perm (f : α → ℚ) (l : List α) :
    List.Perm (isortDescBy f l) l := by
  induction l with
  | nil => exact List.Perm.refl _
  | cons x xs ih => exact (insertDescBy_perm f x _).trans (ih.cons x)

theorem mem_of_mem_take_isort {f : α → ℚ} {l : List α} {k : Nat} {x : α}
    (h : x ∈ (isortDescBy f l).take k) : x ∈ l :=
  (isortDescBy_perm f l).subset (List.take_subset _ _ h)

theorem rotate_take_perm (l : List α) (n k : Nat) (h : l.length ≤ k) :
    List.Perm ((l.drop n ++ l.take n).take k) l := by
  have hlen : (l.drop n ++ l.take n).length = l.length := by
    simp [List.length_append]
    omega
  rw [List.take_of_length_le (by rw [hlen]; exact h)]
  exact List.perm_append_comm.trans (by rw [List.take_append_drop])

/-- C6 counterexample: on an 11-record cached pool, two successive
`recommend_performers` calls serve 10-element windows whose id sets are
NOT equal — the record with id suffix "0" is missing from the first call's
output and present in the second call's. -/
theorem c6_window_cex :
    RecId.oCounter "0" ∉
        (recommend_performers id id [] (Except.error ()) stFx).1.map Rec.rid ∧
      RecId.oCounter "0" ∈
        (recommend_performers id id [] (Except.error ())
            (recommend_performers id id [] (Except.error ()) stFx).2).1.map
          Rec.rid := by
  constructor
  · with_unfolding_all decide
  · with_unfolding_all decide

/-- C6 amended: on a populated performer cache of at most 10 records, two
successive `recommend_performers` calls return permutations of one id set
(each serves the whole rotated pool); with more than 10 cached records the
two 10-element windows can differ in ids (see the counterexample). -/
theorem c6_rotation_perm_amended
    (sh1 sh1' : List Rec → List Rec)
    (sh2 sh2' : List SimilarEntry → List SimilarEntry)
    (pdata pdata' : List Performer) (stats stats' : Except Unit Stats)
    (st : RecState) (h1 : st.performer_cache ≠ [])
    (h2 : st.performer_cache.length ≤ 10) :
    List.Perm
      ((recommend_performers sh1 sh2 pdata stats st).1.map Rec.rid)
      ((recommend_performers sh1' sh2' pdata' stats'
          (recommend_performers sh1 sh2 pdata stats st).2).1.map Rec.rid) := by
  have key : ∀ (shA : List Rec → List Rec)
      (shB : List SimilarEntry → List SimilarEntry)
      (pd : List Performer) (ss : Except Unit Stats) (s : RecState),
      s.performer_cache ≠ [] → s.performer_cache.length ≤ 10 →
      List.Perm ((recommend_performers shA shB pd ss s).1.map Rec.rid)
          ((s.performer_cache.map Prod.snd).map Rec.rid) ∧
        (recommend_performers shA shB pd ss s).2.performer_cache
          = s.performer_cache := by
    intro shA shB pd ss s hs hlen
    constructor
    · have hres : (recommend_performers shA shB pd ss s).1 =
          ((s.performer_cache.map Prod.snd).drop
              ((s.counter + 1) % (s.performer_cache.map Prod.snd).length)
            ++ (s.performer_cache.map Prod.snd).take
              ((s.counter + 1) % (s.performer_cache.map Prod.snd).length)).take
            10 := by
        simp [recommend_performers, hs]
      rw [hres]
      exact List.Perm.map Rec.rid
        (rotate_take_perm _ _ _ (by simpa using hlen))
    · simp [recommend_performers, hs]
  obtain ⟨p1, e1⟩ := key sh1 sh2 pdata stats st h1 h2
  obtain ⟨p2, e2⟩ :=
    key sh1' sh2' pdata' stats' _ (by rw [e1]; exact h1) (by rw [e1]; exact h2)
  rw [e1] at p2
  exact p1.trans p2.symm

/-- C6 witness: on the two-record cache the two successive calls are
id-set permutations of each other. -/
theorem c6_rotation_perm_witness :
    List.Perm
      ((recommend_performers id id [] (Except.error ()) stC3).1.map Rec.rid)
      ((recommend_performers id id [] (Except.error ())
          (recommend_performers id id [] (Except.error ()) stC3).2).1.map
        Rec.rid) :=
  c6_rotation_perm_amended id id id id [] [] (Except.error ())
    (Except.error ()) stC3 (by with_unfolding_all decide)
    (by with_unfolding_all decide)

/-- C3 counterexample: with both caches populated (two performer records,
counter 0), calling `recommend_performers` twice serves `[a, b]` on the
second call, but interposing a `recommend_scenes` call between the two
advances the shared counter so the second call serves `[b, a]` instead —
the scenes call does change which rotation the performer call serves. -/
theorem c3_shared_counter_cex :
    ((recommend_performers id id [] (Except.error ())
        (recommend_performers id id [] (Except.error ()) stC3).2).1.map
      Rec.rid) ≠
    ((recommend_performers id id [] (Except.error ())
        (recommend_scenes [] (Except.error ())
          (recommend_performers id id [] (Except.error ()) stC3).2).2).1.map
      Rec.rid) := by
  with_unfolding_all decide

/-- C3 amended: the two caches share the single rotation counter
`_recommendation_counter`: every `recommend_scenes` call leaves the
performer cache untouched but increments the shared counter by one (and
symmetrically `recommend_performers` leaves the scene cache untouched and
increments the same counter), so a scenes call between two performer calls
advances the rotation that the second performer call serves. -/
theorem c3_shared_counter_amended (scenes : List Scene)
    (stats stats2 : Except Unit Stats) (sh1 : List Rec → List Rec)
    (sh2 : List SimilarEntry → List SimilarEntry) (pdata : List Performer)
    (st : RecState) :
    (recommend_scenes scenes stats st).2.performer_cache = st.performer_cache ∧
    (recommend_scenes scenes stats st).2.counter = st.counter + 1 ∧
    (recommend_performers sh1 sh2 pdata stats2 st).2.scene_cache
        = st.scene_cache ∧
    (recommend_performers sh1 sh2 pdata stats2 st).2.counter
        = st.counter + 1 := by
  have hsc : (recommend_scenes scenes stats st).2.performer_cache
        = st.performer_cache ∧
      (recommend_scenes scenes stats st).2.counter = st.counter + 1 := by
    by_cases h : st.scene_cache = []
    · by_cases hs : scenes = []
      · constructor <;> simp [recommend_scenes, h, hs]
      · cases stats <;> constructor <;> simp [recommend_scenes, h, hs]
    · constructor <;> simp [recommend_scenes, h]
  have hrp : (recommend_performers sh1 sh2 pdata stats2 st).2.scene_cache
        = st.scene_cache ∧
      (recommend_performers sh1 sh2 pdata stats2 st).2.counter
        = st.counter + 1 := by
    by_cases h : st.performer_cache = []
    · by_cases hp : pdata = []
      · constructor <;> simp [recommend_performers, h, hp]
      · cases stats2 <;> constructor <;> simp [recommend_performers, h, hp]
    · constructor <;> simp [recommend_performers, h]
  exact ⟨hsc.1, hsc.2, hrp.1, hrp.2⟩

/-- C10: with an empty scene snapshot and an empty scene cache,
`recommend_scenes` returns the empty mapping: no category key is present
at all, so looking any of the four category names up yields a missing-key
result rather than an empty list. -/
theorem c10_empty_scenes_empty_map (stats : Except Unit Stats)
    (st : RecState) (h : st.scene_cache = []) :
    (recommend_scenes [] stats st).1 = [] ∧
    (recommend_scenes [] stats st).1.lookup "favorite_performer_scenes" = none ∧
    (recommend_scenes [] stats st).1.lookup "non_favorite_performer_scenes" = none ∧
    (recommend_scenes [] stats st).1.lookup "recommended_performer_scenes" = none ∧
    (recommend_scenes [] stats st).1.lookup "similar_tag_scenes" = none := by
  have h1 : (recommend_scenes [] stats st).1 = [] := by
    simp [recommend_scenes, h]
  rw [h1]
  exact ⟨rfl, rfl, rfl, rfl, rfl⟩

/-- C10 witness: the degraded call on the initial state returns the empty
mapping with all four category keys missing. -/
theorem c10_empty_scenes_witness :
    (recommend_scenes [] (Except.error ()) st0).1 = [] ∧
    (recommend_scenes [] (Except.error ()) st0).1.lookup
      "favorite_performer_scenes" = none :=
  ⟨(c10_empty_scenes_empty_map (Except.error ()) st0 rfl).1,
    (c10_empty_scenes_empty_map (Except.error ()) st0 rfl).2.1⟩

theorem scene_filter_partition (popular mct tn : List String)
    (scenes : List Scene) :
    List.Perm
      (favBucket popular mct scenes ++ recBucket popular mct tn scenes ++
        simBucket popular mct tn scenes ++ nonFavBucket popular mct tn scenes)
      ((scenes.filter (fun s => sceneEligible s)).map
        (mkSceneRec popular mct)) := by
  induction scenes with
  | nil => simp [favBucket, recBucket, simBucket, nonFavBucket]
  | cons s l ih =>
    refine List.perm_iff_count.mpr (fun a => ?_)
    have iha := List.perm_iff_count.mp ih a
    simp only [favBucket, recBucket, simBucket, nonFavBucket,
      List.filter_cons] at iha ⊢
    by_cases he : sceneEligible s
    · by_cases hf : sceneHasFav s
      · simp [he, hf, List.count_append, List.count_cons] at iha ⊢
        omega
      · by_cases ht : sceneHasTop tn s
        · simp [he, hf, ht, List.count_append, List.count_cons] at iha ⊢
          omega
        · by_cases hg :
            calculate_tag_similarity (sceneTagNames s) mct > 3/10
          · simp [he, hf, ht, hg, List.count_append, List.count_cons] at iha ⊢
            omega
          · simp [he, hf, ht, hg, List.count_append, List.count_cons] at iha ⊢
            omega
    · simp only [Bool.not_eq_true] at he
      simp [he, List.count_append, List.count_cons] at iha ⊢
      omega

theorem recommend_scenes_out_eq (scenes : List Scene) (stats : Stats)
    (st : RecState) (h1 : st.scene_cache = []) (h2 : scenes ≠ []) :
    (recommend_scenes scenes (Except.ok stats) st).1 =
      [("favorite_performer_scenes",
          (isortDescBy (fun r => (r.similarity : ℚ))
            (favBucket (getPopularTags scenes 3 20) (mostCommonTags scenes)
              scenes)).take 10),
        ("non_favorite_performer_scenes",
          (isortDescBy (fun r => (r.similarity : ℚ))
            (nonFavBucket (getPopularTags scenes 3 20) (mostCommonTags scenes)
              (topPerformerNames stats) scenes)).take 10),
        ("recommended_performer_scenes",
          (isortDescBy (fun r => (r.similarity : ℚ))
            (recBucket (getPopularTags scenes 3 20) (mostCommonTags scenes)
              (topPerformerNames stats) scenes)).take 10),
        ("similar_tag_scenes",
          (isortDescBy SceneRec.tag_similarity
            (simBucket (getPopularTags scenes 3 20) (mostCommonTags scenes)
              (topPerformerNames stats) scenes)).take 15)] := by
  simp [recommend_scenes, h1, h2]

theorem recommend_scenes_mem_char (scenes : List Scene) (stats : Stats)
    (st : RecState) (h1 : st.scene_cache = []) (h2 : scenes ≠ []) :
    ∀ nl ∈ (recommend_scenes scenes (Except.ok stats) st).1, ∀ r ∈ nl.2,
      ∃ s ∈ scenes, sceneEligible s = true ∧
        r = mkSceneRec (getPopularTags scenes 3 20) (mostCommonTags scenes) s := by
  intro nl hnl r hr
  rw [recommend_scenes_out_eq scenes stats st h1 h2] at hnl
  simp only [List.mem_cons, List.not_mem_nil, or_false] at hnl
  rcases hnl with h | h | h | h <;> subst h <;> dsimp at hr
  · have hb := mem_of_mem_take_isort hr
    simp only [favBucket, List.mem_map, List.mem_filter] at hb
    obtain ⟨s, ⟨hs, hp⟩, hre⟩ := hb
    simp only [Bool.and_eq_true] at hp
    exact ⟨s, hs, hp.1, hre.symm⟩
  · have hb := mem_of_mem_take_isort hr
    simp only [nonFavBucket, List.mem_map, List.mem_filter] at hb
    obtain ⟨s, ⟨hs, hp⟩, hre⟩ := hb
    simp only [Bool.and_eq_true] at hp
    exact ⟨s, hs, hp.1.1.1, hre.symm⟩
  · have hb := mem_of_mem_take_isort hr
    simp only [recBucket, List.mem_map, List.mem_filter] at hb
    obtain ⟨s, ⟨hs, hp⟩, hre⟩ := hb
    simp only [Bool.and_eq_true] at hp
    exact ⟨s, hs, hp.1.1, hre.symm⟩
  · have hb := mem_of_mem_take_isort hr
    simp only [simBucket, List.mem_map, List.mem_filter] at hb
    obtain ⟨s, ⟨hs, hp⟩, hre⟩ := hb
    simp only [Bool.and_eq_true] at hp
    exact ⟨s, hs, hp.1.1.1, hre.symm⟩

/-- C5 counterexample: eleven scenes all have `o_counter == 0` and all
fall into the fallback category, but the returned mapping holds only 10
entries in total and the scene `"s11"` appears in no category at all —
per-category truncation (here the fallback cap of 10) breaks
exhaustiveness over the returned mapping. -/
theorem c5_truncation_cex :
    (((recommend_scenes scenes5 (Except.ok statsE) st0).1.map
        (fun nl => nl.2.length)).sum = 10) ∧
    (scenes5.filter (fun s => sceneEligible s)).length = 11 ∧
    ((recommend_scenes scenes5 (Except.ok statsE) st0).1.all
        (fun nl => nl.2.all (fun r => r.sid != some "s11"))) = true := by
  refine ⟨?_, ?_, ?_⟩ <;> with_unfolding_all decide

/-- C5 amended: before the per-category sorting and truncation, the four
priority buckets are mutually exclusive and exhaustive over the scenes
with `o_counter == 0` (their concatenation is a permutation of the
eligible-scene records, assigned in the priority order favorite →
recommended → similar-tag → fallback); every entry of the returned
mapping originates from exactly that bucketing of some `o_counter == 0`
scene, but a category serves at most its first 10 (15 for
`similar_tag_scenes`) sorted entries, so scenes beyond a cap are absent
from the returned mapping. -/
theorem c5_partition_amended (scenes : List Scene) (stats : Stats)
    (st : RecState) (h1 : st.scene_cache = []) (h2 : scenes ≠ []) :
    List.Perm
      (favBucket (getPopularTags scenes 3 20) (mostCommonTags scenes) scenes ++
        recBucket (getPopularTags scenes 3 20) (mostCommonTags scenes)
          (topPerformerNames stats) scenes ++
        simBucket (getPopularTags scenes 3 20) (mostCommonTags scenes)
          (topPerformerNames stats) scenes ++
        nonFavBucket (getPopularTags scenes 3 20) (mostCommonTags scenes)
          (topPerformerNames stats) scenes)
      ((scenes.filter (fun s => sceneEligible s)).map
        (mkSceneRec (getPopularTags scenes 3 20) (mostCommonTags scenes))) ∧
    (∀ nl ∈ (recommend_scenes scenes (Except.ok stats) st).1, ∀ r ∈ nl.2,
      ∃ s ∈ scenes, sceneEligible s = true ∧
        r = mkSceneRec (getPopularTags scenes 3 20) (mostCommonTags scenes) s) :=
  ⟨scene_filter_partition _ _ _ scenes,
    recommend_scenes_mem_char scenes stats st h1 h2⟩

/-- C5 witness: the bucket partition evaluated on the two-scene
snapshot. -/
theorem c5_partition_witness :
    List.Perm
      (favBucket (getPopularTags scenes2 3 20) (mostCommonTags scenes2) scenes2 ++
        recBucket (getPopularTags scenes2 3 20) (mostCommonTags scenes2)
          (topPerformerNames statsE) scenes2 ++
        simBucket (getPopularTags scenes2 3 20) (mostCommonTags scenes2)
          (topPerformerNames statsE) scenes2 ++
        nonFavBucket (getPopularTags scenes2 3 20) (mostCommonTags scenes2)
          (topPerformerNames statsE) scenes2)
      ((scenes2.filter (fun s => sceneEligible s)).map
        (mkSceneRec (getPopularTags scenes2 3 20) (mostCommonTags scenes2))) :=
  (c5_partition_amended scenes2 statsE st0 rfl (by simp [scenes2])).1

/-- C2 counterexample: the snapshot `scenes2` has an engaged scene with
`o_counter = 1` tagged `"t"`, so the weighted vocabulary with
`minOCounter=1` is `["t"]` and the claim predicts `popularity_score = 1`
for the unseen scene `"sB"`; the code computes the vocabulary with
`minOCounter=3`, which is empty, and stores `popularity_score = 0`. -/
theorem c2_popular_threshold_cex :
    ((recommend_scenes scenes2 (Except.ok statsE) st0).1.lookup
        "non_favorite_performer_scenes")
      = some [{ sid := some "sB", title := "Unknown", performers := [],
                tags := ["t"], tag_similarity := 0, similarity := 0 }] ∧
    intersectCount ["t"] (getPopularTags scenes2 1 20) = 1 := by
  constructor <;> with_unfolding_all decide

/-- C2 amended: every scene entry of the mapping returned on a cold cache
has `popularity_score` equal to the size of the intersection of its tag
set with the weighted popular-tag vocabulary computed with `minOCounter=3`
(and `topN=20`), not `minOCounter=1`. -/
theorem c2_popularity_uses_min3 (scenes : List Scene) (stats : Stats)
    (st : RecState) (h1 : st.scene_cache = []) (h2 : scenes ≠ []) :
    ∀ nl ∈ (recommend_scenes scenes (Except.ok stats) st).1, ∀ r ∈ nl.2,
      r.similarity = intersectCount r.tags (getPopularTags scenes 3 20) := by
  intro nl hnl r hr
  obtain ⟨s, _, _, hre⟩ :=
    recommend_scenes_mem_char scenes stats st h1 h2 nl hnl r hr
  subst hre
  rfl

/-- C2 witness: the amended equality applied to the single entry the cold
call on `scenes2` returns. -/
theorem c2_popularity_witness :
    (mkSceneRec (getPopularTags scenes2 3 20) (mostCommonTags scenes2)
        scB2).similarity
      = intersectCount
        (mkSceneRec (getPopularTags scenes2 3 20) (mostCommonTags scenes2)
          scB2).tags
        (getPopularTags scenes2 3 20) :=
  c2_popularity_uses_min3 scenes2 statsE st0 rfl (by simp [scenes2])
    ("non_favorite_performer_scenes",
      [mkSceneRec (getPopularTags scenes2 3 20) (mostCommonTags scenes2) scB2])
    (by with_unfolding_all decide)
    (mkSceneRec (getPopularTags scenes2 3 20) (mostCommonTags scenes2) scB2)
    (by with_unfolding_all decide)

end StAnalyzer
